import Mathlib

/-!
Verification development for the parquet encryption crypto factory
(`cpp/src/parquet/encryption/crypto_factory.h`): envelope-encryption key
management — configuration validation, column-key spec parsing, single/double
key wrapping, TTL caches, token-based cache invalidation, and master-key
rotation.  Machine bytes are modelled as `Nat` values reduced `% 256`;
fallible operations return `Except`.
-/

namespace ParquetEncryption

/-- Errors raised by the crypto factory layer (spec §7 taxonomy). -/
inductive ParquetError where
  | configurationError (msg : String)
  | keyMaterialError (msg : String)
deriving DecidableEq

/-- Whether an `Except` result is a `ConfigurationError`. -/
def isConfigurationErrorB {α : Type} : Except ParquetError α → Bool
  | .error (.configurationError _) => true
  | _ => false

/-- Parquet cipher selection, from `crypto_factory.h`:
"AES_GCM_V1" (default) or "AES_GCM_CTR_V1". -/
inductive ParquetCipher where
  | AES_GCM_V1
  | AES_GCM_CTR_V1
deriving DecidableEq

/-- Header default `kDefaultEncryptionAlgorithm = ParquetCipher::AES_GCM_V1`. -/
def kDefaultEncryptionAlgorithm : ParquetCipher := ParquetCipher.AES_GCM_V1

/-- Header default `kDefaultPlaintextFooter = false`. -/
def kDefaultPlaintextFooter : Bool := false

/-- Header default `kDefaultDoubleWrapping = true`. -/
def kDefaultDoubleWrapping : Bool := true

/-- Header default `kDefaultCacheLifetimeSeconds = 600` (C++ `double`;
time is modelled in whole seconds). -/
def kDefaultCacheLifetimeSeconds : Nat := 600

/-- Header default `kDefaultInternalKeyMaterial = true`. -/
def kDefaultInternalKeyMaterial : Bool := true

/-- Header default `kDefaultUniformEncryption = false`. -/
def kDefaultUniformEncryption : Bool := false

/-- Header default `kDefaultDataKeyLengthBits = 128`. -/
def kDefaultDataKeyLengthBits : Int := 128

/-- The `EncryptionConfiguration` struct from `crypto_factory.h`, with the header's
default member initializers.  The constructor takes only the footer key. -/
structure EncryptionConfiguration where
  footer_key : String
  column_keys : String := ""
  uniform_encryption : Bool := kDefaultUniformEncryption
  encryption_algorithm : ParquetCipher := kDefaultEncryptionAlgorithm
  plaintext_footer : Bool := kDefaultPlaintextFooter
  double_wrapping : Bool := kDefaultDoubleWrapping
  cache_lifetime_seconds : Nat := kDefaultCacheLifetimeSeconds
  internal_key_material : Bool := kDefaultInternalKeyMaterial
  data_key_length_bits : Int := kDefaultDataKeyLengthBits
deriving DecidableEq

/-- Constructor `EncryptionConfiguration(const std::string& footer_key)`: construction
from a footer master-key id alone, all other members defaulted. -/
def EncryptionConfiguration.ofFooterKey (fk : String) : EncryptionConfiguration :=
  { footer_key := fk }

/-! ### Local symmetric key-wrap primitive

Modelled from the spec: §4.3 requires "a symmetric key-wrap primitive" for
the local (KEK) tier, and §1 notes no particular cipher is mandated — only
that both modes recover byte-identical DEKs.  We use an additive stream
cipher over bytes (`Nat % 256`), which is invertible on byte values. -/

/-- The `i`-th key-stream byte derived from `key` (cyclic, reduced mod 256). -/
def keyByte (key : List Nat) (i : Nat) : Nat :=
  key.getD (i % key.length) 0 % 256

/-- Locally wrap `pt` under `key`, starting at stream position `i`. -/
def wrapLocalAux (key : List Nat) : Nat → List Nat → List Nat
  | _, [] => []
  | i, d :: ds => (d + keyByte key i) % 256 :: wrapLocalAux key (i + 1) ds

/-- Locally unwrap `ct` under `key`, starting at stream position `i`. -/
def unwrapLocalAux (key : List Nat) : Nat → List Nat → List Nat
  | _, [] => []
  | i, w :: ws => (w + 256 - keyByte key i) % 256 :: unwrapLocalAux key (i + 1) ws

/-- Modelled from the spec: the local symmetric key-wrap primitive of §4.3
(the concrete cipher is an external collaborator; any invertible byte cipher
satisfies the contract). -/
def wrapLocal (key pt : List Nat) : List Nat := wrapLocalAux key 0 pt

/-- Modelled from the spec: inverse of `wrapLocal`. -/
def unwrapLocal (key ct : List Nat) : List Nat := unwrapLocalAux key 0 ct

/-! ### KMS capability

Modelled from the spec: §6 `KmsClient` capability — `wrap` targets the
latest master-key version, `unwrap` auto-resolves the version recorded in
the wrapped bytes.  The KMS key store is a function from master-key id and
version to key bytes. -/

/-- Wrapped bytes returned by the KMS: the master-key id and version used
for wrapping are embedded, so unwrap can resolve them (spec §6). -/
structure WrappedKms where
  master_key_id : String
  version : Nat
  ciphertext : List Nat
deriving DecidableEq

/-- Modelled from the spec: `KmsClient::wrap(masterKeyId, plaintext)`,
always using the latest master-key version. -/
def kmsWrap (store : String → Nat → List Nat) (latest : Nat) (mk : String)
    (pt : List Nat) : WrappedKms :=
  ⟨mk, latest, wrapLocal (store mk latest) pt⟩

/-- Modelled from the spec: `KmsClient::unwrap(wrappedBytes)`, resolving the
master-key version embedded in the wrapped bytes. -/
def kmsUnwrap (store : String → Nat → List Nat) (w : WrappedKms) : List Nat :=
  unwrapLocal (store w.master_key_id w.version) w.ciphertext

/-! ### Wrapped key material (spec §3 `WrappedKeyMaterial`, §4.3 protocol) -/

/-- Modelled from the spec: wrapped key material — in single mode the DEK is
wrapped directly by the KMS; in double mode the KEK is KMS-wrapped and the
DEK is locally wrapped under the KEK. -/
inductive KeyMaterial where
  | singleWrapped (wrapped_dek : WrappedKms)
  | doubleWrapped (kek_id : String) (wrapped_kek : WrappedKms) (wrapped_dek : List Nat)
deriving DecidableEq

/-- Modelled from the spec: the `KeyWrapper` wrap protocol of §4.3, selected
by `double_wrapping`. -/
def wrapDek (store : String → Nat → List Nat) (latest : Nat)
    (double_wrapping : Bool) (master_key_id kek_id : String)
    (kek dek : List Nat) : KeyMaterial :=
  match double_wrapping with
  | true => KeyMaterial.doubleWrapped kek_id (kmsWrap store latest master_key_id kek)
      (wrapLocal kek dek)
  | false => KeyMaterial.singleWrapped (kmsWrap store latest master_key_id dek)

/-- Modelled from the spec: the `KeyUnwrapper` unwrap protocol of §4.3. -/
def unwrapDek (store : String → Nat → List Nat) : KeyMaterial → List Nat
  | KeyMaterial.singleWrapped w => kmsUnwrap store w
  | KeyMaterial.doubleWrapped _ wkek wdek => unwrapLocal (kmsUnwrap store wkek) wdek

/-- Modelled from the spec: §4.4 rotation of one stored key entry — unwrap
with the old master-key version (resolved from the wrapped form), re-wrap
the same recovered bytes (DEK, or KEK under double wrapping) with the
latest version.  The locally wrapped DEK is untouched in double mode. -/
def rotateKeyMaterial (store : String → Nat → List Nat) (latest : Nat) :
    KeyMaterial → KeyMaterial
  | KeyMaterial.singleWrapped w =>
      KeyMaterial.singleWrapped (kmsWrap store latest w.master_key_id (kmsUnwrap store w))
  | KeyMaterial.doubleWrapped kid wkek wdek =>
      KeyMaterial.doubleWrapped kid
        (kmsWrap store latest wkek.master_key_id (kmsUnwrap store wkek)) wdek

/-! ### Column-key specification parsing

Modelled from the spec: §6 grammar `group (";" group)*`,
`group = keyId ":" colName ("," colName)*`; keys unique across groups and a
column path must not appear in more than one group (§3 `ColumnKeySpec`).
The implementation (`CryptoFactory::GetColumnEncryptionProperties`) is not
in the given sources. -/

/-- Split a character list at every occurrence of `sep` (an empty input
yields one empty field, like `String.splitOn`). -/
def splitChars (sep : Char) : List Char → List (List Char)
  | [] => [[]]
  | c :: cs =>
    if c = sep then [] :: splitChars sep cs
    else
      match splitChars sep cs with
      | r :: rs => (c :: r) :: rs
      | [] => [[c]]

/-- Split a string at every occurrence of the separator character. -/
def splitString (sep : Char) (s : String) : List String :=
  (splitChars sep s.toList).map (fun l => String.mk l)

/-- Parse one group `keyId ":" colName ("," colName)*`. -/
def parseGroup (g : String) : Except ParquetError (String × List String) :=
  match splitString ':' g with
  | [k, cols] =>
    if k = "" then Except.error (ParquetError.configurationError "empty key id")
    else
      let cs := splitString ',' cols
      if cs.contains "" then
        Except.error (ParquetError.configurationError "empty column name")
      else Except.ok (k, cs)
  | _ => Except.error (ParquetError.configurationError "malformed column keys group")

/-- Parse every group of a column-key spec, failing on the first malformed one. -/
def parseGroups : List String → Except ParquetError (List (String × List String))
  | [] => Except.ok []
  | g :: gs =>
    match parseGroup g, parseGroups gs with
    | Except.ok p, Except.ok ps => Except.ok (p :: ps)
    | Except.error e, _ => Except.error e
    | _, Except.error e => Except.error e

/-- All strings in the list pairwise distinct (Boolean). -/
def distinctStrings : List String → Bool
  | [] => true
  | s :: rest => !(rest.contains s) && distinctStrings rest

/-- Concatenation of the per-group column lists. -/
def concatAll : List (List String) → List String
  | [] => []
  | l :: ls => l ++ concatAll ls

/-- Modelled from the spec: parse the textual column-key spec into a mapping
from master-key id to column paths, rejecting duplicate keys across groups
and a column path appearing in more than one group. -/
def parseColumnKeys (s : String) :
    Except ParquetError (List (String × List String)) :=
  match parseGroups (splitString ';' s) with
  | Except.error e => Except.error e
  | Except.ok gs =>
    if distinctStrings (gs.map Prod.fst) && distinctStrings (concatAll (gs.map Prod.snd))
    then Except.ok gs
    else Except.error (ParquetError.configurationError "duplicate key or column")

/-! ### Configuration validation (spec §4.1 step 1) -/

/-- Modelled from the spec: fail unless exactly one of {non-empty column-key
spec, `uniform_encryption`} holds. -/
def checkExactlyOne (c : EncryptionConfiguration) : Except ParquetError Unit :=
  if c.uniform_encryption = true ∧ c.column_keys ≠ "" then
    Except.error (ParquetError.configurationError "both column keys and uniform encryption")
  else if c.uniform_encryption = false ∧ c.column_keys = "" then
    Except.error (ParquetError.configurationError "neither column keys nor uniform encryption")
  else Except.ok ()

/-- Modelled from the spec: fail if `data_key_length_bits` is not one of
128, 192, 256. -/
def checkDekLength (c : EncryptionConfiguration) : Except ParquetError Unit :=
  if c.data_key_length_bits = 128 ∨ c.data_key_length_bits = 192 ∨
     c.data_key_length_bits = 256 then Except.ok ()
  else Except.error (ParquetError.configurationError "unsupported data key length")

/-- Modelled from the spec: fail if `internal_key_material = false` and
either the file path or the file system is absent (absent path = `""`,
matching the C++ default argument). -/
def checkExternalKeyMaterial (c : EncryptionConfiguration) (file_path : String)
    (has_file_system : Bool) : Except ParquetError Unit :=
  if c.internal_key_material = false ∧ (file_path = "" ∨ has_file_system = false) then
    Except.error (ParquetError.configurationError "external key material needs path and file system")
  else Except.ok ()

/-! ### GetFileEncryptionProperties pipeline (spec §4.1) -/

/-- Modelled from the spec: the sidecar key-material path, derived
deterministically from the parquet file's path (§6 sidecar convention). -/
def deriveKeyMaterialPath (p : String) : String :=
  "_KEY_MATERIAL_FOR_" ++ p ++ ".json"

/-- The aggregate encryption-properties result (spec §6 outputs): footer DEK
and metadata, cipher choice, plaintext-footer flag, the column path →
(DEK, metadata) map, and the sidecar document when key material is external. -/
structure FileEncryptionPropertiesM where
  footer_key_bytes : List Nat
  footer_key_material : KeyMaterial
  algorithm : ParquetCipher
  plaintext_footer : Bool
  uniform : Bool
  column_map : List (String × (List Nat × KeyMaterial))
  sidecar : Option (String × List (String × KeyMaterial))
deriving DecidableEq

/-- Per-column key material: group `i` (1-based; the footer uses DEK number
0) gets one fresh DEK shared by all columns of the group (spec §4.1 step 4). -/
def columnMapOfGroups (store : String → Nat → List Nat) (latest : Nat)
    (double_wrapping : Bool) (kek_id : String) (kek : List Nat)
    (dekSupply : Nat → List Nat) :
    Nat → List (String × List String) → List (String × (List Nat × KeyMaterial))
  | _, [] => []
  | i, (mk, cols) :: rest =>
    cols.map (fun col =>
      (col, (dekSupply i, wrapDek store latest double_wrapping mk kek_id kek (dekSupply i))))
    ++ columnMapOfGroups store latest double_wrapping kek_id kek dekSupply (i + 1) rest

/-- Modelled from the spec: §4.1 step 4 — uniform encryption produces no
per-column DEKs; otherwise the parsed groups each get one wrapped DEK. -/
def buildColumnMap (store : String → Nat → List Nat) (latest : Nat)
    (kek_id : String) (kek : List Nat) (dekSupply : Nat → List Nat)
    (c : EncryptionConfiguration) :
    Except ParquetError (List (String × (List Nat × KeyMaterial))) :=
  if c.uniform_encryption = true then Except.ok []
  else
    match parseColumnKeys c.column_keys with
    | Except.error e => Except.error e
    | Except.ok gs =>
      Except.ok (columnMapOfGroups store latest c.double_wrapping kek_id kek dekSupply 1 gs)

/-- Modelled from the spec: `CryptoFactory::GetFileEncryptionProperties`
(§4.1) — validate the configuration, generate and wrap the footer DEK
(DEK number 0 of `dekSupply`), build the per-column map, and, when key
material is external, emit the sidecar document at the derived path.  The
implementation is not in the given sources; randomness is supplied by
`dekSupply`/`kek`, the KMS by `store`/`latest`. -/
def GetFileEncryptionProperties (store : String → Nat → List Nat) (latest : Nat)
    (dekSupply : Nat → List Nat) (kek : List Nat) (kek_id : String)
    (c : EncryptionConfiguration) (file_path : String) (has_file_system : Bool) :
    Except ParquetError FileEncryptionPropertiesM :=
  match checkExactlyOne c with
  | Except.error e => Except.error e
  | Except.ok _ =>
  match checkDekLength c with
  | Except.error e => Except.error e
  | Except.ok _ =>
  match checkExternalKeyMaterial c file_path has_file_system with
  | Except.error e => Except.error e
  | Except.ok _ =>
  match buildColumnMap store latest kek_id kek dekSupply c with
  | Except.error e => Except.error e
  | Except.ok columnMap =>
    let footerDek := dekSupply 0
    let footerKM := wrapDek store latest c.double_wrapping c.footer_key kek_id kek footerDek
    Except.ok
      { footer_key_bytes := footerDek
        footer_key_material := footerKM
        algorithm := c.encryption_algorithm
        plaintext_footer := c.plaintext_footer
        uniform := c.uniform_encryption
        column_map := columnMap
        sidecar :=
          if c.internal_key_material = true then none
          else some (deriveKeyMaterialPath file_path,
                     ("footer", footerKM) :: columnMap.map (fun e => (e.1, e.2.2))) }

/-- The key bytes protecting column `col` under the returned properties:
with uniform encryption the footer DEK is reused for every column. -/
def columnKeyBytes (r : FileEncryptionPropertiesM) (col : String) :
    Option (List Nat) :=
  if r.uniform = true then some r.footer_key_bytes
  else (r.column_map.lookup col).map Prod.fst

/-! ### KeyToolkit caches (spec §4.2) -/

/-- A cache entry: value, creation timestamp, owning access token (spec §3
`CacheEntry`); dead once `now − created > ttl`. -/
structure CacheEntry (α : Type) where
  value : α
  created : Nat
  token : String
deriving DecidableEq

/-- Modelled from the spec: §4.2 cache contract — a live entry is returned
without an underlying call; a miss or an expired entry performs exactly one
underlying construction (the third component counts underlying calls). -/
def getOrCreate {κ α : Type} [DecidableEq κ] (cache : κ → Option (CacheEntry α))
    (k : κ) (now ttl : Nat) (token : String) (fresh : α) :
    (κ → Option (CacheEntry α)) × α × Nat :=
  match cache k with
  | some e =>
    if now - e.created ≤ ttl then (cache, e.value, 0)
    else (fun x => if x = k then some ⟨fresh, now, token⟩ else cache x, fresh, 1)
  | none => (fun x => if x = k then some ⟨fresh, now, token⟩ else cache x, fresh, 1)

/-- Remove every entry whose owning token is `tok` (one cache). -/
def removeTokenEntries {κ α : Type} (cache : κ → Option (CacheEntry α))
    (tok : String) : κ → Option (CacheEntry α) :=
  fun k =>
    match cache k with
    | some e => if e.token = tok then none else some e
    | none => none

/-- A constructed KMS client, identified by its connection configuration. -/
structure KmsClientM where
  connection_id : String
deriving DecidableEq

/-- Modelled from the spec: `KeyToolkit` — the three caches of §4.2:
KMS clients keyed by connection identity, KEKs keyed by (master-key id,
connection identity), and the local wrapped-state cache of single-wrapping
mode. -/
structure KeyToolkit where
  kms_client_cache : String → Option (CacheEntry KmsClientM)
  kek_cache : String × String → Option (CacheEntry (List Nat × WrappedKms))
  local_wrap_cache : String → Option (CacheEntry (List Nat))

/-- Cache-or-create a KMS client for a connection (spec §4.1 step 2). -/
def KeyToolkit.getKmsClient (kt : KeyToolkit) (conn : String) (now ttl : Nat)
    (token : String) (fresh : KmsClientM) : KeyToolkit × KmsClientM × Nat :=
  let r := getOrCreate kt.kms_client_cache conn now ttl token fresh
  ({ kt with kms_client_cache := r.1 }, r.2.1, r.2.2)

/-- Cache-or-create a KEK (with its master-wrapped form) for a
(master-key id, connection) pair (spec §4.3 double wrapping). -/
def KeyToolkit.getKek (kt : KeyToolkit) (key : String × String) (now ttl : Nat)
    (token : String) (fresh : List Nat × WrappedKms) :
    KeyToolkit × (List Nat × WrappedKms) × Nat :=
  let r := getOrCreate kt.kek_cache key now ttl token fresh
  ({ kt with kek_cache := r.1 }, r.2.1, r.2.2)

/-- Cache-or-create local wrapped state (single-wrapping mode, spec §4.2). -/
def KeyToolkit.getLocalWrap (kt : KeyToolkit) (p : String) (now ttl : Nat)
    (token : String) (fresh : List Nat) : KeyToolkit × List Nat × Nat :=
  let r := getOrCreate kt.local_wrap_cache p now ttl token fresh
  ({ kt with local_wrap_cache := r.1 }, r.2.1, r.2.2)

/-- Method `CryptoFactory::RemoveCacheEntriesForToken`: remove, across all three
caches, every entry whose owning token matches (spec §4.2). -/
def KeyToolkit.RemoveCacheEntriesForToken (kt : KeyToolkit) (tok : String) :
    KeyToolkit :=
  { kms_client_cache := removeTokenEntries kt.kms_client_cache tok
    kek_cache := removeTokenEntries kt.kek_cache tok
    local_wrap_cache := removeTokenEntries kt.local_wrap_cache tok }

/-- Method `CryptoFactory::RemoveCacheEntriesForAllTokens`: clear all three caches. -/
def KeyToolkit.RemoveCacheEntriesForAllTokens (_kt : KeyToolkit) : KeyToolkit :=
  { kms_client_cache := fun _ => none
    kek_cache := fun _ => none
    local_wrap_cache := fun _ => none }

/-! ### File system and master-key rotation (spec §4.4) -/

/-- A file held by the file-system collaborator: either opaque data bytes
(the parquet file with its encrypted column payload) or a key-material
sidecar document mapping entry names to wrapped key material. -/
inductive FsFile where
  | dataFile (contents : List Nat)
  | keyDoc (entries : List (String × KeyMaterial))
deriving DecidableEq

/-- Modelled from the spec: `CryptoFactory::RotateMasterKeys` (§4.4) — load
the external key-material document at the derived sidecar path, unwrap each
entry with the old master-key version (resolved from the wrapped form),
re-wrap with the latest version, and atomically replace the sidecar; fails
on a file without an external key-material document.  The implementation is
not in the given sources. -/
def RotateMasterKeys (store : String → Nat → List Nat) (latest : Nat)
    (fs : String → Option FsFile) (parquet_file_path : String) :
    Except ParquetError (String → Option FsFile) :=
  match fs (deriveKeyMaterialPath parquet_file_path) with
  | some (FsFile.keyDoc entries) =>
    Except.ok (fun p =>
      if p = deriveKeyMaterialPath parquet_file_path then
        some (FsFile.keyDoc (entries.map (fun e => (e.1, rotateKeyMaterial store latest e.2))))
      else fs p)
  | _ => Except.error (ParquetError.configurationError "no external key material for file")

/-! ### A concrete rotation scenario (used to exercise `RotateMasterKeys`) -/

/-- Example KMS key store: every master-key version has key bytes `[2]`. -/
def exampleStore : String → Nat → List Nat := fun _ _ => [2]

/-- Example key-material document content: one single-wrapped footer entry. -/
def exampleEntries : List (String × KeyMaterial) :=
  [("footer", KeyMaterial.singleWrapped ⟨"mk", 0, [5]⟩)]

/-- Example file system: a parquet file and its external key-material sidecar. -/
def exampleFs : String → Option FsFile := fun q =>
  if q = "_KEY_MATERIAL_FOR_f.parquet.json" then some (FsFile.keyDoc exampleEntries)
  else if q = "f.parquet" then some (FsFile.dataFile [9]) else none

/-- The example file system after rotating to master-key version 1. -/
def exampleFsRotated : String → Option FsFile := fun p =>
  if p = deriveKeyMaterialPath "f.parquet" then
    some (FsFile.keyDoc (exampleEntries.map
      (fun e => (e.1, rotateKeyMaterial exampleStore 1 e.2))))
  else exampleFs p

end ParquetEncryption

namespace ParquetEncryption

theorem keyByte_lt (key : List Nat) (i : Nat) : keyByte key i < 256 :=
  Nat.mod_lt _ (by norm_num)

theorem unwrapLocalAux_wrapLocalAux (key pt : List Nat) :
    ∀ i, (∀ b ∈ pt, b < 256) →
      unwrapLocalAux key i (wrapLocalAux key i pt) = pt := by
  induction pt with
  | nil => intro i _; rfl
  | cons d ds ih =>
    intro i h
    have hd : d < 256 := h d (List.mem_cons_self _ _)
    have hk : keyByte key i < 256 := keyByte_lt key i
    simp only [wrapLocalAux, unwrapLocalAux]
    rw [ih (i + 1) (fun b hb => h b (List.mem_cons_of_mem _ hb))]
    congr 1
    omega

theorem unwrapLocal_wrapLocal (key pt : List Nat) (h : ∀ b ∈ pt, b < 256) :
    unwrapLocal key (wrapLocal key pt) = pt :=
  unwrapLocalAux_wrapLocalAux key pt 0 h

theorem unwrapLocalAux_mem_lt (key ct : List Nat) :
    ∀ i, ∀ b ∈ unwrapLocalAux key i ct, b < 256 := by
  induction ct with
  | nil => intro i b hb; simp [unwrapLocalAux] at hb
  | cons c cs ih =>
    intro i b hb
    simp only [unwrapLocalAux, List.mem_cons] at hb
    rcases hb with hb | hb
    · subst hb; exact Nat.mod_lt _ (by norm_num)
    · exact ih (i + 1) b hb

theorem unwrapLocal_mem_lt (key ct : List Nat) : ∀ b ∈ unwrapLocal key ct, b < 256 :=
  unwrapLocalAux_mem_lt key ct 0

theorem kmsUnwrap_kmsWrap (store : String → Nat → List Nat) (latest : Nat)
    (mk : String) (pt : List Nat) (h : ∀ b ∈ pt, b < 256) :
    kmsUnwrap store (kmsWrap store latest mk pt) = pt :=
  unwrapLocal_wrapLocal _ _ h

theorem kmsUnwrap_mem_lt (store : String → Nat → List Nat) (w : WrappedKms) :
    ∀ b ∈ kmsUnwrap store w, b < 256 :=
  unwrapLocal_mem_lt _ _

theorem unwrapDek_rotateKeyMaterial (store : String → Nat → List Nat)
    (latest : Nat) (km : KeyMaterial) :
    unwrapDek store (rotateKeyMaterial store latest km) = unwrapDek store km := by
  cases km with
  | singleWrapped w =>
    simp only [rotateKeyMaterial, unwrapDek]
    exact kmsUnwrap_kmsWrap _ _ _ _ (kmsUnwrap_mem_lt store w)
  | doubleWrapped kid wkek wdek =>
    simp only [rotateKeyMaterial, unwrapDek]
    rw [kmsUnwrap_kmsWrap _ _ _ _ (kmsUnwrap_mem_lt store wkek)]

/-! ### Helper lemmas: error classification and pipeline shape -/

theorem isConfigurationErrorB_true {α : Type} (r : Except ParquetError α)
    (m : String) (h : r = Except.error (ParquetError.configurationError m)) :
    isConfigurationErrorB r = true := by
  rw [h]; rfl

theorem checkExactlyOne_ok_or_config (c : EncryptionConfiguration) :
    checkExactlyOne c = Except.ok () ∨
      ∃ m, checkExactlyOne c = Except.error (ParquetError.configurationError m) := by
  unfold checkExactlyOne
  split
  · exact Or.inr ⟨_, rfl⟩
  · split
    · exact Or.inr ⟨_, rfl⟩
    · exact Or.inl rfl

theorem checkDekLength_ok_or_config (c : EncryptionConfiguration) :
    checkDekLength c = Except.ok () ∨
      ∃ m, checkDekLength c = Except.error (ParquetError.configurationError m) := by
  unfold checkDekLength
  split
  · exact Or.inl rfl
  · exact Or.inr ⟨_, rfl⟩

theorem getProps_error_of_checkExactlyOne (store : String → Nat → List Nat)
    (latest : Nat) (dekSupply : Nat → List Nat) (kek : List Nat) (kek_id : String)
    (c : EncryptionConfiguration) (file_path : String) (has_file_system : Bool)
    (e : ParquetError) (h : checkExactlyOne c = Except.error e) :
    GetFileEncryptionProperties store latest dekSupply kek kek_id c file_path
      has_file_system = Except.error e := by
  unfold GetFileEncryptionProperties
  rw [h]

theorem getProps_error_of_checkDekLength (store : String → Nat → List Nat)
    (latest : Nat) (dekSupply : Nat → List Nat) (kek : List Nat) (kek_id : String)
    (c : EncryptionConfiguration) (file_path : String) (has_file_system : Bool)
    (e : ParquetError) (h1 : checkExactlyOne c = Except.ok ())
    (h2 : checkDekLength c = Except.error e) :
    GetFileEncryptionProperties store latest dekSupply kek kek_id c file_path
      has_file_system = Except.error e := by
  unfold GetFileEncryptionProperties
  rw [h1, h2]

theorem getProps_error_of_checkExternal (store : String → Nat → List Nat)
    (latest : Nat) (dekSupply : Nat → List Nat) (kek : List Nat) (kek_id : String)
    (c : EncryptionConfiguration) (file_path : String) (has_file_system : Bool)
    (e : ParquetError) (h1 : checkExactlyOne c = Except.ok ())
    (h2 : checkDekLength c = Except.ok ())
    (h3 : checkExternalKeyMaterial c file_path has_file_system = Except.error e) :
    GetFileEncryptionProperties store latest dekSupply kek kek_id c file_path
      has_file_system = Except.error e := by
  unfold GetFileEncryptionProperties
  rw [h1, h2, h3]

theorem getProps_ok_form (store : String → Nat → List Nat) (latest : Nat)
    (dekSupply : Nat → List Nat) (kek : List Nat) (kek_id : String)
    (c : EncryptionConfiguration) (file_path : String) (has_file_system : Bool)
    (cm : List (String × (List Nat × KeyMaterial)))
    (h1 : checkExactlyOne c = Except.ok ())
    (h2 : checkDekLength c = Except.ok ())
    (h3 : checkExternalKeyMaterial c file_path has_file_system = Except.ok ())
    (h4 : buildColumnMap store latest kek_id kek dekSupply c = Except.ok cm) :
    GetFileEncryptionProperties store latest dekSupply kek kek_id c file_path
      has_file_system =
    Except.ok
      { footer_key_bytes := dekSupply 0
        footer_key_material :=
          wrapDek store latest c.double_wrapping c.footer_key kek_id kek (dekSupply 0)
        algorithm := c.encryption_algorithm
        plaintext_footer := c.plaintext_footer
        uniform := c.uniform_encryption
        column_map := cm
        sidecar :=
          if c.internal_key_material = true then none
          else some (deriveKeyMaterialPath file_path,
            ("footer",
              wrapDek store latest c.double_wrapping c.footer_key kek_id kek (dekSupply 0))
              :: cm.map (fun e => (e.1, e.2.2))) } := by
  unfold GetFileEncryptionProperties
  rw [h1, h2, h3, h4]

theorem getProps_ok_inv (store : String → Nat → List Nat) (latest : Nat)
    (dekSupply : Nat → List Nat) (kek : List Nat) (kek_id : String)
    (c : EncryptionConfiguration) (file_path : String) (has_file_system : Bool)
    (r : FileEncryptionPropertiesM)
    (hr : GetFileEncryptionProperties store latest dekSupply kek kek_id c file_path
      has_file_system = Except.ok r) :
    checkExactlyOne c = Except.ok () ∧ checkDekLength c = Except.ok () ∧
    checkExternalKeyMaterial c file_path has_file_system = Except.ok () ∧
    ∃ cm, buildColumnMap store latest kek_id kek dekSupply c = Except.ok cm := by
  unfold GetFileEncryptionProperties at hr
  cases h1 : checkExactlyOne c with
  | error e => rw [h1] at hr; exact Except.noConfusion hr
  | ok u =>
    cases u
    rw [h1] at hr
    cases h2 : checkDekLength c with
    | error e => rw [h2] at hr; exact Except.noConfusion hr
    | ok u =>
      cases u
      rw [h2] at hr
      cases h3 : checkExternalKeyMaterial c file_path has_file_system with
      | error e => rw [h3] at hr; exact Except.noConfusion hr
      | ok u =>
        cases u
        rw [h3] at hr
        cases h4 : buildColumnMap store latest kek_id kek dekSupply c with
        | error e => rw [h4] at hr; exact Except.noConfusion hr
        | ok cm => exact ⟨rfl, rfl, rfl, cm, rfl⟩

theorem deriveKeyMaterialPath_ne (p : String) : deriveKeyMaterialPath p ≠ p := by
  intro h
  have hlen := congrArg String.length h
  rw [deriveKeyMaterialPath, String.length_append, String.length_append] at hlen
  have h1 : String.length "_KEY_MATERIAL_FOR_" = 18 := rfl
  have h2 : String.length ".json" = 5 := rfl
  omega

theorem getOrCreate_ttl {κ α : Type} [DecidableEq κ]
    (cache : κ → Option (CacheEntry α)) (k : κ) (T t0 ε : Nat)
    (token token2 : String) (v v2 : α) (h : cache k = none) :
    (getOrCreate cache k t0 T token v).2.2 = 1 ∧
    (1 ≤ ε →
      (getOrCreate (getOrCreate cache k t0 T token v).1 k (t0 + T + ε) T token2 v2).2.2 = 1) ∧
    (ε ≤ T →
      (getOrCreate (getOrCreate cache k t0 T token v).1 k (t0 + T - ε) T token2 v2).2.2 = 0 ∧
      (getOrCreate (getOrCreate cache k t0 T token v).1 k (t0 + T - ε) T token2 v2).2.1 = v) := by
  refine ⟨by simp [getOrCreate, h], fun hε => ?_, fun hε => ?_⟩
  · have hcond : ¬ (t0 + T + ε - t0 ≤ T) := by omega
    simp [getOrCreate, h, hcond]
  · have hcond : t0 + T - ε - t0 ≤ T := by omega
    constructor <;> simp [getOrCreate, h, hcond]

theorem removeTokenEntries_mem {κ α : Type} (cache : κ → Option (CacheEntry α))
    (tok : String) (k : κ) (e : CacheEntry α) :
    removeTokenEntries cache tok k = some e ↔
      cache k = some e ∧ e.token ≠ tok := by
  unfold removeTokenEntries
  cases hc : cache k with
  | none => simp
  | some e2 =>
    by_cases ht : e2.token = tok
    · simp only [ht, if_pos rfl, Option.some.injEq]
      constructor
      · intro h; exact Option.noConfusion h
      · rintro ⟨rfl, hne⟩; exact absurd ht hne
    · simp only [if_neg ht, Option.some.injEq]
      constructor
      · rintro rfl; exact ⟨rfl, ht⟩
      · rintro ⟨rfl, _⟩; rfl

theorem getOrCreate_hit {κ α : Type} [DecidableEq κ]
    (cache : κ → Option (CacheEntry α)) (k : κ) (e : CacheEntry α)
    (now ttl : Nat) (token : String) (v : α)
    (h : cache k = some e) (hl : now - e.created ≤ ttl) :
    getOrCreate cache k now ttl token v = (cache, e.value, 0) := by
  simp [getOrCreate, h, hl]

/-! ### Claim theorems -/

/-- C1: `GetFileEncryptionProperties` fails with a ConfigurationError unless
exactly one of {non-empty column-key spec, `uniform_encryption`} holds: both
set fails, neither set fails, and exactly one passes the validation. -/
theorem c1_exactly_one_of_column_keys_uniform (store : String → Nat → List Nat)
    (latest : Nat) (dekSupply : Nat → List Nat) (kek : List Nat) (kek_id : String)
    (c : EncryptionConfiguration) (file_path : String) (has_file_system : Bool) :
    (c.uniform_encryption = true ∧ c.column_keys ≠ "" →
      isConfigurationErrorB (GetFileEncryptionProperties store latest dekSupply kek
        kek_id c file_path has_file_system) = true) ∧
    (c.uniform_encryption = false ∧ c.column_keys = "" →
      isConfigurationErrorB (GetFileEncryptionProperties store latest dekSupply kek
        kek_id c file_path has_file_system) = true) ∧
    ((c.uniform_encryption = true ↔ c.column_keys = "") →
      checkExactlyOne c = Except.ok ()) := by
  refine ⟨fun hboth => ?_, fun hneither => ?_, fun hone => ?_⟩
  · have hc : checkExactlyOne c =
        Except.error (ParquetError.configurationError "both column keys and uniform encryption") := by
      unfold checkExactlyOne
      rw [if_pos hboth]
    exact isConfigurationErrorB_true _ _
      (getProps_error_of_checkExactlyOne _ _ _ _ _ _ _ _ _ hc)
  · have hc : checkExactlyOne c =
        Except.error (ParquetError.configurationError "neither column keys nor uniform encryption") := by
      unfold checkExactlyOne
      rw [if_neg (by rintro ⟨ha, _⟩; rw [hneither.1] at ha; exact Bool.noConfusion ha),
          if_pos hneither]
    exact isConfigurationErrorB_true _ _
      (getProps_error_of_checkExactlyOne _ _ _ _ _ _ _ _ _ hc)
  · unfold checkExactlyOne
    rw [if_neg (by rintro ⟨ha, hb⟩; exact hb (hone.mp ha)),
        if_neg (by rintro ⟨ha, hb⟩; rw [hone.mpr hb] at ha; exact Bool.noConfusion ha)]

/-- C1 witness: a configuration with both column keys and uniform encryption
set is rejected, one with neither is rejected, and the default uniform
configuration passes the exactly-one validation. -/
theorem c1_witness :
    isConfigurationErrorB (GetFileEncryptionProperties (fun _ _ => []) 0 (fun _ => [1])
      [] "kid" { footer_key := "fk", column_keys := "k1:colA", uniform_encryption := true }
      "" false) = true ∧
    isConfigurationErrorB (GetFileEncryptionProperties (fun _ _ => []) 0 (fun _ => [1])
      [] "kid" { footer_key := "fk" } "" false) = true ∧
    checkExactlyOne { footer_key := "fk", uniform_encryption := true } = Except.ok () :=
  ⟨(c1_exactly_one_of_column_keys_uniform (fun _ _ => []) 0 (fun _ => [1]) [] "kid"
      { footer_key := "fk", column_keys := "k1:colA", uniform_encryption := true }
      "" false).1 ⟨rfl, by decide⟩,
   (c1_exactly_one_of_column_keys_uniform (fun _ _ => []) 0 (fun _ => [1]) [] "kid"
      { footer_key := "fk" } "" false).2.1 ⟨rfl, rfl⟩,
   (c1_exactly_one_of_column_keys_uniform (fun _ _ => []) 0 (fun _ => [1]) [] "kid"
      { footer_key := "fk", uniform_encryption := true } "" false).2.2
     (by constructor <;> intro <;> rfl)⟩

/-- C2: for both wrapping modes and every DEK of 128, 192 or 256 bits
(16, 24 or 32 bytes), unwrapping the wrapped form recovers the DEK:
`unwrap(wrap(dek)) = dek`. -/
theorem c2_unwrap_wrap_roundtrip (store : String → Nat → List Nat) (latest : Nat)
    (double_wrapping : Bool) (master_key_id kek_id : String) (kek dek : List Nat)
    (hdek : ∀ b ∈ dek, b < 256) (hkek : ∀ b ∈ kek, b < 256)
    (_hlen : dek.length = 16 ∨ dek.length = 24 ∨ dek.length = 32) :
    unwrapDek store (wrapDek store latest double_wrapping master_key_id kek_id kek dek)
      = dek := by
  cases double_wrapping with
  | false =>
    simp only [wrapDek, unwrapDek]
    exact kmsUnwrap_kmsWrap _ _ _ _ hdek
  | true =>
    simp only [wrapDek, unwrapDek]
    rw [kmsUnwrap_kmsWrap _ _ _ _ hkek]
    exact unwrapLocal_wrapLocal _ _ hdek

/-- C2 witness: concrete round trips in double- and single-wrapping mode for
a 16-byte DEK. -/
theorem c2_witness :
    unwrapDek (fun _ _ => [3, 200]) (wrapDek (fun _ _ => [3, 200]) 1 true "mk" "kid"
      [9, 250] (List.replicate 16 7)) = List.replicate 16 7 ∧
    unwrapDek (fun _ _ => [3, 200]) (wrapDek (fun _ _ => [3, 200]) 1 false "mk" "kid"
      [9, 250] (List.replicate 16 7)) = List.replicate 16 7 :=
  ⟨c2_unwrap_wrap_roundtrip (fun _ _ => [3, 200]) 1 true "mk" "kid" [9, 250]
      (List.replicate 16 7) (by decide) (by decide) (by decide),
   c2_unwrap_wrap_roundtrip (fun _ _ => [3, 200]) 1 false "mk" "kid" [9, 250]
      (List.replicate 16 7) (by decide) (by decide) (by decide)⟩

/-- C4: the column-key spec follows the grammar `group (";" group)*` with
`group = keyId ":" colName ("," colName)*`: the example spec parses to the
expected mapping; every spec string whose parsed groups repeat a column
path (in particular one duplicated across groups) fails with a
ConfigurationError; and conversely every successful parse has pairwise
distinct column paths across groups. -/
theorem c4_parseColumnKeys_grammar :
    parseColumnKeys "k1:colA,colB;k2:colC" =
      Except.ok [("k1", ["colA", "colB"]), ("k2", ["colC"])] ∧
    (∀ s gs, parseGroups (splitString ';' s) = Except.ok gs →
      distinctStrings (concatAll (gs.map Prod.snd)) = false →
      parseColumnKeys s =
        Except.error (ParquetError.configurationError "duplicate key or column")) ∧
    (∀ s gs, parseColumnKeys s = Except.ok gs →
      distinctStrings (concatAll (gs.map Prod.snd)) = true) := by
  refine ⟨rfl, fun s gs h hdup => ?_, fun s gs h => ?_⟩
  · unfold parseColumnKeys
    rw [h]
    simp [hdup]
  · unfold parseColumnKeys at h
    split at h
    · exact Except.noConfusion h
    · split at h
      · rename_i hcond
        cases h
        exact (Bool.and_eq_true _ _ |>.mp hcond).2
      · exact Except.noConfusion h

/-- C4 witness: the spec `"k1:colA;k2:colA"`, whose column `colA` appears in
both groups, fails with a ConfigurationError; the distinctness guarantee
applied to the duplicate-free example spec. -/
theorem c4_witness :
    parseColumnKeys "k1:colA;k2:colA" =
      Except.error (ParquetError.configurationError "duplicate key or column") ∧
    distinctStrings (concatAll
      (([("k1", ["colA", "colB"]), ("k2", ["colC"])] :
        List (String × List String)).map Prod.snd)) = true :=
  ⟨c4_parseColumnKeys_grammar.2.1 "k1:colA;k2:colA"
      [("k1", ["colA"]), ("k2", ["colA"])] rfl rfl,
   c4_parseColumnKeys_grammar.2.2 "k1:colA,colB;k2:colC"
      [("k1", ["colA", "colB"]), ("k2", ["colC"])] rfl⟩

/-- C8: `GetFileEncryptionProperties` fails with a ConfigurationError for
every configuration whose `data_key_length_bits` is not 128, 192 or 256;
for those three values the key-length validation succeeds. -/
theorem c8_data_key_length (store : String → Nat → List Nat) (latest : Nat)
    (dekSupply : Nat → List Nat) (kek : List Nat) (kek_id : String)
    (c : EncryptionConfiguration) (file_path : String) (has_file_system : Bool) :
    (¬ (c.data_key_length_bits = 128 ∨ c.data_key_length_bits = 192 ∨
        c.data_key_length_bits = 256) →
      isConfigurationErrorB (GetFileEncryptionProperties store latest dekSupply kek
        kek_id c file_path has_file_system) = true) ∧
    ((c.data_key_length_bits = 128 ∨ c.data_key_length_bits = 192 ∨
        c.data_key_length_bits = 256) →
      checkDekLength c = Except.ok ()) := by
  refine ⟨fun hbad => ?_, fun hgood => ?_⟩
  · rcases checkExactlyOne_ok_or_config c with hok | ⟨m, herr⟩
    · have hdl : checkDekLength c =
          Except.error (ParquetError.configurationError "unsupported data key length") := by
        unfold checkDekLength
        rw [if_neg hbad]
      exact isConfigurationErrorB_true _ _
        (getProps_error_of_checkDekLength _ _ _ _ _ _ _ _ _ hok hdl)
    · exact isConfigurationErrorB_true _ _
        (getProps_error_of_checkExactlyOne _ _ _ _ _ _ _ _ _ herr)
  · unfold checkDekLength
    rw [if_pos hgood]

/-- C8 witness: a 120-bit key length is rejected, a 192-bit one passes the
length validation. -/
theorem c8_witness :
    isConfigurationErrorB (GetFileEncryptionProperties (fun _ _ => []) 0 (fun _ => [1])
      [] "kid" { footer_key := "fk", uniform_encryption := true, data_key_length_bits := 120 }
      "" false) = true ∧
    checkDekLength
      { footer_key := "fk", uniform_encryption := true, data_key_length_bits := 192 }
      = Except.ok () :=
  ⟨(c8_data_key_length (fun _ _ => []) 0 (fun _ => [1]) [] "kid"
      { footer_key := "fk", uniform_encryption := true, data_key_length_bits := 120 }
      "" false).1 (by decide),
   (c8_data_key_length (fun _ _ => []) 0 (fun _ => [1]) [] "kid"
      { footer_key := "fk", uniform_encryption := true, data_key_length_bits := 192 }
      "" false).2 (by decide)⟩

/-- C7: with `internal_key_material = false`, `GetFileEncryptionProperties`
fails with a ConfigurationError if the file path or the file system is
absent; whenever it succeeds, the result carries a sidecar key-material
document at the path derived from the file path. -/
theorem c7_external_key_material (store : String → Nat → List Nat) (latest : Nat)
    (dekSupply : Nat → List Nat) (kek : List Nat) (kek_id : String)
    (c : EncryptionConfiguration) (file_path : String) (has_file_system : Bool)
    (hint : c.internal_key_material = false) :
    ((file_path = "" ∨ has_file_system = false) →
      isConfigurationErrorB (GetFileEncryptionProperties store latest dekSupply kek
        kek_id c file_path has_file_system) = true) ∧
    (∀ r, GetFileEncryptionProperties store latest dekSupply kek kek_id c file_path
        has_file_system = Except.ok r →
      ∃ doc, r.sidecar = some (deriveKeyMaterialPath file_path, doc)) := by
  refine ⟨fun habs => ?_, fun r hr => ?_⟩
  · rcases checkExactlyOne_ok_or_config c with h1 | ⟨m, h1⟩
    · rcases checkDekLength_ok_or_config c with h2 | ⟨m, h2⟩
      · have h3 : checkExternalKeyMaterial c file_path has_file_system =
            Except.error (ParquetError.configurationError
              "external key material needs path and file system") := by
          unfold checkExternalKeyMaterial
          rw [if_pos ⟨hint, habs⟩]
        exact isConfigurationErrorB_true _ _
          (getProps_error_of_checkExternal _ _ _ _ _ _ _ _ _ h1 h2 h3)
      · exact isConfigurationErrorB_true _ _
          (getProps_error_of_checkDekLength _ _ _ _ _ _ _ _ _ h1 h2)
    · exact isConfigurationErrorB_true _ _
        (getProps_error_of_checkExactlyOne _ _ _ _ _ _ _ _ _ h1)
  · obtain ⟨h1, h2, h3, cm, h4⟩ :=
      getProps_ok_inv store latest dekSupply kek kek_id c file_path has_file_system r hr
    rw [getProps_ok_form store latest dekSupply kek kek_id c file_path
      has_file_system cm h1 h2 h3 h4] at hr
    cases hr
    refine ⟨("footer",
      wrapDek store latest c.double_wrapping c.footer_key kek_id kek (dekSupply 0))
      :: cm.map (fun e => (e.1, e.2.2)), ?_⟩
    simp [hint]

/-- C7 witness: with external key material, a missing file system is
rejected; with path and file system supplied the sidecar document sits at
the derived path. -/
theorem c7_witness :
    isConfigurationErrorB (GetFileEncryptionProperties (fun _ _ => []) 0 (fun _ => [1])
      [] "kid" { footer_key := "fk", uniform_encryption := true, internal_key_material := false }
      "f.parquet" false) = true ∧
    (∃ doc, (FileEncryptionPropertiesM.mk [1]
      (wrapDek (fun _ _ => []) 0 true "fk" "kid" [] [1]) ParquetCipher.AES_GCM_V1
      false true []
      (some (deriveKeyMaterialPath "f.parquet",
        [("footer", wrapDek (fun _ _ => []) 0 true "fk" "kid" [] [1])]))).sidecar =
      some (deriveKeyMaterialPath "f.parquet", doc)) :=
  ⟨(c7_external_key_material (fun _ _ => []) 0 (fun _ => [1]) [] "kid"
      { footer_key := "fk", uniform_encryption := true, internal_key_material := false }
      "f.parquet" false rfl).1 (Or.inr rfl),
   (c7_external_key_material (fun _ _ => []) 0 (fun _ => [1]) [] "kid"
      { footer_key := "fk", uniform_encryption := true, internal_key_material := false }
      "f.parquet" true rfl).2 _ rfl⟩

/-- C9: with `uniform_encryption = true` a successful
`GetFileEncryptionProperties` generates no per-column DEKs — the column map
is empty, every entry of it (vacuously) holds the footer key bytes, and the
key protecting any column is the footer DEK. -/
theorem c9_uniform_reuses_footer_dek (store : String → Nat → List Nat) (latest : Nat)
    (dekSupply : Nat → List Nat) (kek : List Nat) (kek_id : String)
    (c : EncryptionConfiguration) (file_path : String) (has_file_system : Bool)
    (r : FileEncryptionPropertiesM) (huni : c.uniform_encryption = true)
    (hr : GetFileEncryptionProperties store latest dekSupply kek kek_id c file_path
      has_file_system = Except.ok r) :
    r.column_map = [] ∧
    (∀ e ∈ r.column_map, e.2.1 = r.footer_key_bytes) ∧
    (∀ col, columnKeyBytes r col = some r.footer_key_bytes) := by
  obtain ⟨h1, h2, h3, cm, h4⟩ :=
    getProps_ok_inv store latest dekSupply kek kek_id c file_path has_file_system r hr
  have hcm : cm = [] := by
    unfold buildColumnMap at h4
    rw [if_pos huni] at h4
    cases h4
    rfl
  subst hcm
  rw [getProps_ok_form store latest dekSupply kek kek_id c file_path
    has_file_system [] h1 h2 h3 h4] at hr
  cases hr
  refine ⟨rfl, fun e he => absurd he (List.not_mem_nil e), fun col => ?_⟩
  simp [columnKeyBytes, huni]

/-- C9 witness: a concrete uniform-encryption call yields an empty column
map and resolves every column to the footer DEK. -/
theorem c9_witness :
    (FileEncryptionPropertiesM.mk [7] (wrapDek (fun _ _ => [3]) 0 true "fk" "kid" [] [7])
        ParquetCipher.AES_GCM_V1 false true [] none).column_map = [] ∧
    (∀ e ∈ (FileEncryptionPropertiesM.mk [7]
        (wrapDek (fun _ _ => [3]) 0 true "fk" "kid" [] [7])
        ParquetCipher.AES_GCM_V1 false true [] none).column_map,
      e.2.1 = (FileEncryptionPropertiesM.mk [7]
        (wrapDek (fun _ _ => [3]) 0 true "fk" "kid" [] [7])
        ParquetCipher.AES_GCM_V1 false true [] none).footer_key_bytes) ∧
    (∀ col, columnKeyBytes (FileEncryptionPropertiesM.mk [7]
        (wrapDek (fun _ _ => [3]) 0 true "fk" "kid" [] [7])
        ParquetCipher.AES_GCM_V1 false true [] none) col =
      some (FileEncryptionPropertiesM.mk [7]
        (wrapDek (fun _ _ => [3]) 0 true "fk" "kid" [] [7])
        ParquetCipher.AES_GCM_V1 false true [] none).footer_key_bytes) :=
  c9_uniform_reuses_footer_dek (fun _ _ => [3]) 0 (fun _ => [7]) [] "kid"
    { footer_key := "fk", uniform_encryption := true } "" false
    (FileEncryptionPropertiesM.mk [7] (wrapDek (fun _ _ => [3]) 0 true "fk" "kid" [] [7])
      ParquetCipher.AES_GCM_V1 false true [] none) rfl rfl

/-- C10: a configuration built from a footer key alone carries the header's
defaults — empty column keys, uniform encryption off, AES_GCM_V1, encrypted
footer, double wrapping, 600-second cache lifetime, internal key material,
128-bit data keys — and such an unmodified configuration is rejected by
`GetFileEncryptionProperties` since neither column keys nor uniform
encryption is set. -/
theorem c10_default_configuration (fk : String) (store : String → Nat → List Nat)
    (latest : Nat) (dekSupply : Nat → List Nat) (kek : List Nat) (kek_id : String)
    (file_path : String) (has_file_system : Bool) :
    (EncryptionConfiguration.ofFooterKey fk).column_keys = "" ∧
    (EncryptionConfiguration.ofFooterKey fk).uniform_encryption = false ∧
    (EncryptionConfiguration.ofFooterKey fk).encryption_algorithm =
      ParquetCipher.AES_GCM_V1 ∧
    (EncryptionConfiguration.ofFooterKey fk).plaintext_footer = false ∧
    (EncryptionConfiguration.ofFooterKey fk).double_wrapping = true ∧
    (EncryptionConfiguration.ofFooterKey fk).cache_lifetime_seconds = 600 ∧
    (EncryptionConfiguration.ofFooterKey fk).internal_key_material = true ∧
    (EncryptionConfiguration.ofFooterKey fk).data_key_length_bits = 128 ∧
    isConfigurationErrorB (GetFileEncryptionProperties store latest dekSupply kek
      kek_id (EncryptionConfiguration.ofFooterKey fk) file_path has_file_system)
      = true := by
  refine ⟨rfl, rfl, rfl, rfl, rfl, rfl, rfl, rfl, ?_⟩
  have hc : checkExactlyOne (EncryptionConfiguration.ofFooterKey fk) =
      Except.error (ParquetError.configurationError
        "neither column keys nor uniform encryption") := by
    unfold checkExactlyOne
    rw [if_neg (by rintro ⟨ha, _⟩; exact Bool.noConfusion ha), if_pos ⟨rfl, rfl⟩]
  exact isConfigurationErrorB_true _ _
    (getProps_error_of_checkExactlyOne _ _ _ _ _ _ _ _ _ hc)

/-- C3: `RotateMasterKeys` changes only the wrapping under the master key:
for a file written with external key material, each rotated key entry
unwraps (with the master-key version resolved from the new wrapped form) to
DEK bytes identical to those recoverable before rotation, the sidecar holds
exactly the re-wrapped entries, and every other file — in particular the
parquet file's encrypted payload — is byte-identical to before. -/
theorem c3_rotateMasterKeys_preserves_deks (store : String → Nat → List Nat)
    (latest : Nat) (fs : String → Option FsFile) (parquet_file_path : String)
    (entries : List (String × KeyMaterial)) (fs2 : String → Option FsFile)
    (hdoc : fs (deriveKeyMaterialPath parquet_file_path) = some (FsFile.keyDoc entries))
    (hrot : RotateMasterKeys store latest fs parquet_file_path = Except.ok fs2) :
    (∀ e ∈ entries,
      unwrapDek store (rotateKeyMaterial store latest e.2) = unwrapDek store e.2) ∧
    fs2 (deriveKeyMaterialPath parquet_file_path) =
      some (FsFile.keyDoc (entries.map (fun e => (e.1, rotateKeyMaterial store latest e.2)))) ∧
    (∀ p, p ≠ deriveKeyMaterialPath parquet_file_path → fs2 p = fs p) ∧
    (∀ payload, fs parquet_file_path = some (FsFile.dataFile payload) →
      fs2 parquet_file_path = some (FsFile.dataFile payload)) := by
  unfold RotateMasterKeys at hrot
  rw [hdoc] at hrot
  cases hrot
  refine ⟨fun e _ => unwrapDek_rotateKeyMaterial store latest e.2, ?_, ?_, ?_⟩
  · simp
  · intro p hp
    simp [hp]
  · intro payload hpay
    have hne : parquet_file_path ≠ deriveKeyMaterialPath parquet_file_path :=
      fun h => deriveKeyMaterialPath_ne parquet_file_path h.symm
    simp [hne, hpay]

/-- C3 witness: rotating a concrete file with one single-wrapped footer
entry preserves the recovered DEK, rewrites only the sidecar, and leaves
the parquet payload untouched. -/
theorem c3_witness :
    (∀ e ∈ exampleEntries,
      unwrapDek exampleStore (rotateKeyMaterial exampleStore 1 e.2) =
        unwrapDek exampleStore e.2) ∧
    exampleFsRotated (deriveKeyMaterialPath "f.parquet") =
      some (FsFile.keyDoc (exampleEntries.map
        (fun e => (e.1, rotateKeyMaterial exampleStore 1 e.2)))) ∧
    (∀ p, p ≠ deriveKeyMaterialPath "f.parquet" → exampleFsRotated p = exampleFs p) ∧
    (∀ payload, exampleFs "f.parquet" = some (FsFile.dataFile payload) →
      exampleFsRotated "f.parquet" = some (FsFile.dataFile payload)) :=
  c3_rotateMasterKeys_preserves_deks exampleStore 1 exampleFs "f.parquet"
    exampleEntries exampleFsRotated rfl rfl

/-- C5: for each of the three KeyToolkit caches, with TTL `T` a lookup at
`t0` that installs an entry, followed by a lookup of the same key at
`t0 + T + ε` (ε ≥ 1), performs exactly one additional underlying call,
while a lookup at `t0 + T − ε` (ε ≤ T) performs zero additional calls and
returns the cached value. -/
theorem c5_cache_ttl (kt : KeyToolkit) (T t0 ε : Nat) (token token2 : String) :
    (∀ conn v v2, kt.kms_client_cache conn = none →
      (kt.getKmsClient conn t0 T token v).2.2 = 1 ∧
      (1 ≤ ε →
        ((kt.getKmsClient conn t0 T token v).1.getKmsClient conn (t0 + T + ε) T
          token2 v2).2.2 = 1) ∧
      (ε ≤ T →
        ((kt.getKmsClient conn t0 T token v).1.getKmsClient conn (t0 + T - ε) T
          token2 v2).2.2 = 0 ∧
        ((kt.getKmsClient conn t0 T token v).1.getKmsClient conn (t0 + T - ε) T
          token2 v2).2.1 = v)) ∧
    (∀ key v v2, kt.kek_cache key = none →
      (kt.getKek key t0 T token v).2.2 = 1 ∧
      (1 ≤ ε →
        ((kt.getKek key t0 T token v).1.getKek key (t0 + T + ε) T token2 v2).2.2 = 1) ∧
      (ε ≤ T →
        ((kt.getKek key t0 T token v).1.getKek key (t0 + T - ε) T token2 v2).2.2 = 0 ∧
        ((kt.getKek key t0 T token v).1.getKek key (t0 + T - ε) T token2 v2).2.1 = v)) ∧
    (∀ p v v2, kt.local_wrap_cache p = none →
      (kt.getLocalWrap p t0 T token v).2.2 = 1 ∧
      (1 ≤ ε →
        ((kt.getLocalWrap p t0 T token v).1.getLocalWrap p (t0 + T + ε) T
          token2 v2).2.2 = 1) ∧
      (ε ≤ T →
        ((kt.getLocalWrap p t0 T token v).1.getLocalWrap p (t0 + T - ε) T
          token2 v2).2.2 = 0 ∧
        ((kt.getLocalWrap p t0 T token v).1.getLocalWrap p (t0 + T - ε) T
          token2 v2).2.1 = v)) := by
  refine ⟨fun conn v v2 h => ?_, fun key v v2 h => ?_, fun p v v2 h => ?_⟩
  · have hg := getOrCreate_ttl kt.kms_client_cache conn T t0 ε token token2 v v2 h
    exact ⟨hg.1, fun hε => by simpa [KeyToolkit.getKmsClient] using hg.2.1 hε,
      fun hε => by simpa [KeyToolkit.getKmsClient] using hg.2.2 hε⟩
  · have hg := getOrCreate_ttl kt.kek_cache key T t0 ε token token2 v v2 h
    exact ⟨hg.1, fun hε => by simpa [KeyToolkit.getKek] using hg.2.1 hε,
      fun hε => by simpa [KeyToolkit.getKek] using hg.2.2 hε⟩
  · have hg := getOrCreate_ttl kt.local_wrap_cache p T t0 ε token token2 v v2 h
    exact ⟨hg.1, fun hε => by simpa [KeyToolkit.getLocalWrap] using hg.2.1 hε,
      fun hε => by simpa [KeyToolkit.getLocalWrap] using hg.2.2 hε⟩

/-- C5 witness: on the empty toolkit with `T = 10`, `t0 = 100`, `ε = 3`, the
installing KMS-client lookup costs one call, the lookup at `t0 + T + ε`
costs one more, and the lookup at `t0 + T − ε` costs none and returns the
cached client. -/
theorem c5_witness :
    ((KeyToolkit.mk (fun _ => none) (fun _ => none) (fun _ => none)).getKmsClient
      "conn" 100 10 "tokA" ⟨"client"⟩).2.2 = 1 ∧
    (((KeyToolkit.mk (fun _ => none) (fun _ => none) (fun _ => none)).getKmsClient
      "conn" 100 10 "tokA" ⟨"client"⟩).1.getKmsClient "conn" 113 10 "tokB"
        ⟨"client2"⟩).2.2 = 1 ∧
    (((KeyToolkit.mk (fun _ => none) (fun _ => none) (fun _ => none)).getKmsClient
      "conn" 100 10 "tokA" ⟨"client"⟩).1.getKmsClient "conn" 107 10 "tokB"
        ⟨"client2"⟩).2.2 = 0 ∧
    (((KeyToolkit.mk (fun _ => none) (fun _ => none) (fun _ => none)).getKmsClient
      "conn" 100 10 "tokA" ⟨"client"⟩).1.getKmsClient "conn" 107 10 "tokB"
        ⟨"client2"⟩).2.1 = ⟨"client"⟩ := by
  have h := (c5_cache_ttl (KeyToolkit.mk (fun _ => none) (fun _ => none) (fun _ => none))
    10 100 3 "tokA" "tokB").1 "conn" ⟨"client"⟩ ⟨"client2"⟩ rfl
  exact ⟨h.1, h.2.1 (by decide), (h.2.2 (by decide)).1, (h.2.2 (by decide)).2⟩

/-- C6: `RemoveCacheEntriesForToken tok` removes, across all three
KeyToolkit caches, exactly the entries owned by `tok`: a key maps to an
entry afterwards iff it did before and the entry's token differs from
`tok`; and a live entry owned by another token is still returned by a
subsequent lookup with zero additional underlying calls. -/
theorem c6_removeCacheEntriesForToken (kt : KeyToolkit) (tok : String) :
    (∀ conn e, (kt.RemoveCacheEntriesForToken tok).kms_client_cache conn = some e ↔
      (kt.kms_client_cache conn = some e ∧ e.token ≠ tok)) ∧
    (∀ key e, (kt.RemoveCacheEntriesForToken tok).kek_cache key = some e ↔
      (kt.kek_cache key = some e ∧ e.token ≠ tok)) ∧
    (∀ p e, (kt.RemoveCacheEntriesForToken tok).local_wrap_cache p = some e ↔
      (kt.local_wrap_cache p = some e ∧ e.token ≠ tok)) ∧
    (∀ conn e now ttl tk v, kt.kms_client_cache conn = some e → e.token ≠ tok →
      now - e.created ≤ ttl →
      ((kt.RemoveCacheEntriesForToken tok).getKmsClient conn now ttl tk v).2.1 = e.value ∧
      ((kt.RemoveCacheEntriesForToken tok).getKmsClient conn now ttl tk v).2.2 = 0) ∧
    (∀ key e now ttl tk v, kt.kek_cache key = some e → e.token ≠ tok →
      now - e.created ≤ ttl →
      ((kt.RemoveCacheEntriesForToken tok).getKek key now ttl tk v).2.1 = e.value ∧
      ((kt.RemoveCacheEntriesForToken tok).getKek key now ttl tk v).2.2 = 0) ∧
    (∀ p e now ttl tk v, kt.local_wrap_cache p = some e → e.token ≠ tok →
      now - e.created ≤ ttl →
      ((kt.RemoveCacheEntriesForToken tok).getLocalWrap p now ttl tk v).2.1 = e.value ∧
      ((kt.RemoveCacheEntriesForToken tok).getLocalWrap p now ttl tk v).2.2 = 0) := by
  refine ⟨fun conn e => removeTokenEntries_mem _ _ _ _,
    fun key e => removeTokenEntries_mem _ _ _ _,
    fun p e => removeTokenEntries_mem _ _ _ _,
    fun conn e now ttl tk v hmem hne hlive => ?_,
    fun key e now ttl tk v hmem hne hlive => ?_,
    fun p e now ttl tk v hmem hne hlive => ?_⟩
  · have hm : (kt.RemoveCacheEntriesForToken tok).kms_client_cache conn = some e :=
      (removeTokenEntries_mem _ _ _ _).mpr ⟨hmem, hne⟩
    have hg := getOrCreate_hit _ conn e now ttl tk v hm hlive
    constructor <;> simp [KeyToolkit.getKmsClient, hg]
  · have hm : (kt.RemoveCacheEntriesForToken tok).kek_cache key = some e :=
      (removeTokenEntries_mem _ _ _ _).mpr ⟨hmem, hne⟩
    have hg := getOrCreate_hit _ key e now ttl tk v hm hlive
    constructor <;> simp [KeyToolkit.getKek, hg]
  · have hm : (kt.RemoveCacheEntriesForToken tok).local_wrap_cache p = some e :=
      (removeTokenEntries_mem _ _ _ _).mpr ⟨hmem, hne⟩
    have hg := getOrCreate_hit _ p e now ttl tk v hm hlive
    constructor <;> simp [KeyToolkit.getLocalWrap, hg]

/-- C6 witness: removing token `tokA` from a toolkit holding one `tokA`
entry and one `tokB` entry keeps exactly the `tokB` entry, which a
subsequent lookup returns with zero underlying calls. -/
theorem c6_witness :
    ((KeyToolkit.mk
        (fun c => if c = "c1" then some ⟨⟨"cl1"⟩, 0, "tokA"⟩
          else if c = "c2" then some ⟨⟨"cl2"⟩, 0, "tokB"⟩ else none)
        (fun _ => none) (fun _ => none)).RemoveCacheEntriesForToken
      "tokA").kms_client_cache "c2" = some ⟨⟨"cl2"⟩, 0, "tokB"⟩ ∧
    ¬ (((KeyToolkit.mk
        (fun c => if c = "c1" then some ⟨⟨"cl1"⟩, 0, "tokA"⟩
          else if c = "c2" then some ⟨⟨"cl2"⟩, 0, "tokB"⟩ else none)
        (fun _ => none) (fun _ => none)).RemoveCacheEntriesForToken
      "tokA").kms_client_cache "c1" = some ⟨⟨"cl1"⟩, 0, "tokA"⟩) ∧
    (((KeyToolkit.mk
        (fun c => if c = "c1" then some ⟨⟨"cl1"⟩, 0, "tokA"⟩
          else if c = "c2" then some ⟨⟨"cl2"⟩, 0, "tokB"⟩ else none)
        (fun _ => none) (fun _ => none)).RemoveCacheEntriesForToken
      "tokA").getKmsClient "c2" 5 10 "tokC" ⟨"fresh"⟩).2.1 = ⟨"cl2"⟩ ∧
    (((KeyToolkit.mk
        (fun c => if c = "c1" then some ⟨⟨"cl1"⟩, 0, "tokA"⟩
          else if c = "c2" then some ⟨⟨"cl2"⟩, 0, "tokB"⟩ else none)
        (fun _ => none) (fun _ => none)).RemoveCacheEntriesForToken
      "tokA").getKmsClient "c2" 5 10 "tokC" ⟨"fresh"⟩).2.2 = 0 := by
  have h := c6_removeCacheEntriesForToken
    (KeyToolkit.mk
      (fun c => if c = "c1" then some ⟨⟨"cl1"⟩, 0, "tokA"⟩
        else if c = "c2" then some ⟨⟨"cl2"⟩, 0, "tokB"⟩ else none)
      (fun _ => none) (fun _ => none)) "tokA"
  refine ⟨(h.1 "c2" ⟨⟨"cl2"⟩, 0, "tokB"⟩).mpr ⟨rfl, by decide⟩,
    fun hmem => ?_,
    (h.2.2.2.1 "c2" ⟨⟨"cl2"⟩, 0, "tokB"⟩ 5 10 "tokC" ⟨"fresh"⟩ rfl (by decide) (by decide)).1,
    (h.2.2.2.1 "c2" ⟨⟨"cl2"⟩, 0, "tokB"⟩ 5 10 "tokC" ⟨"fresh"⟩ rfl (by decide) (by decide)).2⟩
  have := ((h.1 "c1" ⟨⟨"cl1"⟩, 0, "tokA"⟩).mp hmem).2
  exact this rfl

end ParquetEncryption
